import Mathlib

/-!
Verification of the vehicle motion and ETA engine of `backend/bus_simulator.py`.

Modelling conventions:
* Python floats are modelled exactly as rationals (`ℚ`).  The haversine
  `calculate_distance` uses transcendental functions (`sin`, `cos`, `atan2`,
  `sqrt`), so it has no exact computable embedding; every operation that calls
  it is therefore parametrised by an abstract distance oracle
  `dist : Coord → Coord → ℚ`.  All control flow of the source is preserved
  exactly over this parameter.  For closed witnesses we instantiate `dist` with
  the computable taxicab distance `flatDist`, which shares the properties of
  the haversine that the control flow can observe (nonnegative, zero on
  coincident points).
* `update_positions` reads `elapsed_seconds` from the wall clock
  (`datetime.now() - self.last_update`); the embedding takes the elapsed
  seconds as an explicit parameter, the standard treatment of the spec's
  `advanceTick(elapsedSeconds)`.
* Vehicle dicts become a fixed-field structure; `dict.get(k, default)` on a
  key that is always written becomes a plain field read.
* `round(x, 1)` / `round(x, 3)` display rounding and the `eta_time` clock
  string (both presentation of the returned dict, not used by any further
  computation) are omitted; `eta_minutes` carries the exact total.
* Python `int` indices stay nonnegative throughout the live simulator
  (construction, clamping); they are modelled as `ℕ`.  List indexing
  `self.coordinates[idx]` becomes `List.getD idx defaultCoord`; the Python
  code would raise `IndexError` exactly where the default could be read
  (empty route), a condition the spec declares fatal at construction.
-/

/-- A latitude/longitude pair in decimal degrees (`[lat, lon]` in the source). -/
structure Coord where
  lat : ℚ
  lon : ℚ
deriving DecidableEq, Repr

/-- A named stop: entries of `self.stops` (`name`, `lat`, `lon`, `wait_time`). -/
structure Stop where
  name : String
  lat : ℚ
  lon : ℚ
  wait_time : ℚ
deriving DecidableEq, Repr

/-- Per-vehicle state: the dict built in `BusSimulator.__init__`. -/
structure Vehicle where
  id : String
  current_index : ℕ
  current_position : Coord
  is_at_stop : Bool
  stop_wait_remaining : ℚ
  speed_kmh : ℚ
deriving DecidableEq, Repr

/-- Engine state: the fields of `BusSimulator` the core algorithms read and
write (`route_data` mirrors `coordinates` for the API layer and
`last_update` is replaced by the explicit elapsed-seconds parameter). -/
structure Simulator where
  coordinates : List Coord
  stops : List Stop
  vehicles : List Vehicle
deriving DecidableEq, Repr

/-- Default coordinate used by `List.getD` where Python indexing would raise. -/
def defaultCoord : Coord := ⟨0, 0⟩

/-- Location of a stop as a coordinate. -/
def stopCoord (s : Stop) : Coord := ⟨s.lat, s.lon⟩

/-- Computable taxicab distance, used to instantiate the abstract distance
oracle in closed witnesses: like the source's haversine it is nonnegative and
zero on coincident points, which is all the engine's control flow observes. -/
def flatDist (p q : Coord) : ℚ := |p.lat - q.lat| + |p.lon - q.lon|

/-- One vehicle of `BusSimulator.__init__` (loop body, lines 23-34):
`idx = int((i * route_len) / num_vehicles)`, position at the (unclamped)
`idx`, index clamped defensively, speed `25 + (i * 5) % 15`. -/
def initVehicle (coords : List Coord) (numVehicles : ℕ) (i : ℕ) : Vehicle :=
  let route_len := coords.length
  let idx := i * route_len / numVehicles
  { id := "bus-" ++ toString (i + 1)
    current_index := if idx < route_len then idx else route_len - 1
    current_position := coords.getD idx defaultCoord
    is_at_stop := false
    stop_wait_remaining := 0
    speed_kmh := ((25 + (i * 5) % 15 : ℕ) : ℚ) }

/-- `BusSimulator.__init__` after the route file is parsed into a coordinate
list and a stop list: `num_vehicles = max(1, num_vehicles)`, vehicles evenly
spaced along the route. -/
def initSim (coords : List Coord) (stops : List Stop) (num_vehicles : ℤ) : Simulator :=
  let n := (max 1 num_vehicles).toNat
  { coordinates := coords
    stops := stops
    vehicles := (List.range n).map (initVehicle coords n) }

/-- `BusSimulator.set_route_coordinates`: no-op on an empty list, otherwise
swap the coordinates and reposition every vehicle
(`idx = int((i * route_len) / max(1, len(self.vehicles)))`, clamped), clearing
dwell state.  Stops are untouched. -/
def set_route_coordinates (sim : Simulator) (coords : List Coord) : Simulator :=
  if coords = [] then sim
  else
    let route_len := coords.length
    let n := max 1 sim.vehicles.length
    { sim with
      coordinates := coords
      vehicles := sim.vehicles.mapIdx fun i v =>
        let idx0 := i * route_len / n
        let idx := if idx0 < route_len then idx0 else route_len - 1
        { v with
          current_index := idx
          current_position := coords.getD idx defaultCoord
          is_at_stop := false
          stop_wait_remaining := 0 } }

/-- The per-vehicle body of `BusSimulator.update_positions` (lines 162-203),
parametrised by the distance oracle and the elapsed seconds:
1. dwelling: subtract elapsed from `stop_wait_remaining`; if it reaches ≤ 0,
   leave the stop and advance the index (clamped) — the residue is kept;
2. defensive wraparound when `current_index ≥ route_len`;
3. otherwise move `speed/3600 * elapsed` km toward `coordinates[current_index]`:
   at distance 0 just advance the index (clamped); on arrival
   (`move ≥ distance`) snap to the target and scan stops for one within
   0.02 km (first match dwells with its `wait_time`), else advance (clamped);
   short of arrival, interpolate linearly. -/
def stepVehicle (dist : Coord → Coord → ℚ) (coords : List Coord) (stops : List Stop)
    (elapsed : ℚ) (v : Vehicle) : Vehicle :=
  let route_len := coords.length
  if v.is_at_stop then
    let w := v.stop_wait_remaining - elapsed
    if w ≤ 0 then
      { v with stop_wait_remaining := w, is_at_stop := false
               current_index := min (v.current_index + 1) (route_len - 1) }
    else
      { v with stop_wait_remaining := w }
  else if route_len ≤ v.current_index then
    { v with current_index := 0, current_position := coords.getD 0 defaultCoord }
  else
    let distance_to_move := v.speed_kmh / 3600 * elapsed
    let target := coords.getD v.current_index defaultCoord
    let distance_to_target := dist v.current_position target
    if distance_to_target = 0 then
      { v with current_index := min (v.current_index + 1) (route_len - 1) }
    else if distance_to_target ≤ distance_to_move then
      let arrived := { v with current_position := target }
      match stops.find? (fun s => dist target (stopCoord s) < 1/50) with
      | some s => { arrived with is_at_stop := true, stop_wait_remaining := s.wait_time }
      | none => { arrived with current_index := min (v.current_index + 1) (route_len - 1) }
    else
      let ratio := distance_to_move / distance_to_target
      { v with current_position :=
          ⟨v.current_position.lat + (target.lat - v.current_position.lat) * ratio,
           v.current_position.lon + (target.lon - v.current_position.lon) * ratio⟩ }

/-- `BusSimulator.update_positions`: every vehicle is advanced independently
by `stepVehicle` with the same elapsed seconds. -/
def update_positions (dist : Coord → Coord → ℚ) (elapsed : ℚ) (sim : Simulator) :
    Simulator :=
  { sim with vehicles := sim.vehicles.map (stepVehicle dist sim.coordinates sim.stops elapsed) }

/-- The route walk of `calculate_eta_for_vehicle` (lines 121-129): from index
`i`, stop (returning the accumulated distance) at the first coordinate within
0.05 km of the target stop; otherwise add the length of the segment to the
next coordinate (when one exists) and continue; `none` when the walk exhausts
the route. -/
def etaWalk (dist : Coord → Coord → ℚ) (coords : List Coord) (target : Stop)
    (i : ℕ) (acc : ℚ) : Option ℚ :=
  if h : i < coords.length then
    if dist (coords.get ⟨i, h⟩) (stopCoord target) < 1/20 then some acc
    else
      etaWalk dist coords target (i + 1)
        (acc + if i + 1 < coords.length then
            dist (coords.get ⟨i, h⟩) (coords.getD (i + 1) defaultCoord) else 0)
  else none
termination_by coords.length - i

/-- Result dict of the ETA queries: `eta_minutes`/`distance_km` are `None`
exactly on the error results; the `eta_time` clock string and display rounding
are presentation and omitted. -/
structure EtaOut where
  eta_minutes : Option ℚ
  distance_km : Option ℚ
  error : Option String
deriving DecidableEq, Repr

/-- The body of `calculate_eta_for_vehicle` after both lookups succeed
(lines 111-152): seed the distance with the leg from the current position to
the current target coordinate, walk the remaining route, convert to minutes
at the vehicle's speed, add the dwell time of every stop whose distance from
the vehicle lies strictly between 0.05 km and the distance to the target
stop, and add the vehicle's own `stop_wait_remaining / 60` (the source adds
it unconditionally, whether or not the vehicle is at a stop). -/
def etaCore (dist : Coord → Coord → ℚ) (coords : List Coord) (stops : List Stop)
    (vehicle : Vehicle) (target_stop : Stop) : EtaOut :=
  let route_len := coords.length
  let cur_idx := vehicle.current_index
  let cur := vehicle.current_position
  let seed := if cur_idx < route_len then
      dist cur (coords.getD cur_idx defaultCoord) else 0
  match etaWalk dist coords target_stop cur_idx seed with
  | none => ⟨none, none, some "Stop not on remaining route"⟩
  | some total_distance =>
    let travel_time_minutes := total_distance / vehicle.speed_kmh * 60
    let wait_time_minutes :=
      (stops.map fun s =>
        let stop_dist := dist cur (stopCoord s)
        let target_dist := dist cur (stopCoord target_stop)
        if 1/20 < stop_dist ∧ stop_dist < target_dist then s.wait_time / 60 else 0).sum
    let total_minutes :=
      travel_time_minutes + wait_time_minutes + vehicle.stop_wait_remaining / 60
    ⟨some total_minutes, some total_distance, none⟩

/-- `BusSimulator.calculate_eta_for_vehicle`: look up the vehicle and the
stop by name (first match), then run the walk-and-accumulate body. -/
def calculate_eta_for_vehicle (dist : Coord → Coord → ℚ) (sim : Simulator)
    (vehicle_id stop_name : String) : EtaOut :=
  match sim.vehicles.find? (fun v => v.id == vehicle_id) with
  | none => ⟨none, none, some "Vehicle not found"⟩
  | some vehicle =>
    match sim.stops.find? (fun s => s.name == stop_name) with
    | none => ⟨none, none, some "Stop not found"⟩
    | some target_stop => etaCore dist sim.coordinates sim.stops vehicle target_stop

/-- `BusSimulator.calculate_eta_to_stop`: the legacy query guards against an
empty fleet and otherwise delegates to vehicle 0. -/
def calculate_eta_to_stop (dist : Coord → Coord → ℚ) (sim : Simulator)
    (stop_name : String) : EtaOut :=
  match sim.vehicles with
  | [] => ⟨none, none, some "No vehicles available"⟩
  | v :: _ => calculate_eta_for_vehicle dist sim v.id stop_name

/-- `BusSimulator.get_status`: `{}` (here `none`) on an empty fleet, otherwise
a summary of vehicle 0 (position and moving flag; the nearest-stop and
clock-string fields are presentation built from them and omitted). -/
def get_status (sim : Simulator) : Option (Coord × Bool) :=
  match sim.vehicles with
  | [] => none
  | v :: _ => some (v.current_position, !v.is_at_stop)

/-- A sequence of tick-advances applied to one vehicle, each tick carrying its
elapsed seconds. -/
def applyTicks (dist : Coord → Coord → ℚ) (coords : List Coord) (stops : List Stop)
    (es : List ℚ) (v : Vehicle) : Vehicle :=
  es.foldl (fun w e => stepVehicle dist coords stops e w) v

/-- C1, counterexample: a tick-advance with `elapsedSeconds = 0` does change a
vehicle's route index.  Directly after construction a vehicle sits exactly on
`coordinates[current_index]`, so `distance_to_target = 0` and the zero-elapsed
tick advances the index from 0 to 1. -/
theorem c1_counterexample :
    ((update_positions flatDist 0 (initSim [⟨0, 0⟩, ⟨0, 1⟩] [] 1)).vehicles.map
        Vehicle.current_index = [1]) ∧
    ((initSim [⟨0, 0⟩, ⟨0, 1⟩] [] 1).vehicles.map Vehicle.current_index = [0]) := by
  norm_num [update_positions, initSim, initVehicle, stepVehicle, flatDist, defaultCoord,
    stopCoord, List.range_succ]

/-- C1, amended: a tick-advance with `elapsedSeconds = 0` leaves a vehicle
entirely unchanged provided that, if Dwelling, its dwell-remaining is still
positive, and, if Traveling, its route index is in range and its distance to
the current target coordinate is positive.  (A Traveling vehicle at zero
distance to its target advances its index, and a Dwelling vehicle whose
dwell-remaining is already ≤ 0 exits dwelling and advances its index, even
with zero elapsed time.) -/
theorem c1_amended (dist : Coord → Coord → ℚ) (coords : List Coord) (stops : List Stop)
    (v : Vehicle)
    (hdwell : v.is_at_stop = true → 0 < v.stop_wait_remaining)
    (htrav : v.is_at_stop = false → v.current_index < coords.length ∧
      0 < dist v.current_position (coords.getD v.current_index defaultCoord)) :
    stepVehicle dist coords stops 0 v = v := by
  obtain ⟨vid, ci, cp, ias, swr, sp⟩ := v
  cases ias with
  | true =>
    have hw : 0 < swr := hdwell rfl
    simp only [stepVehicle, if_true, sub_zero]
    rw [if_neg (not_le.mpr hw)]
  | false =>
    obtain ⟨hidx, hpos⟩ := htrav rfl
    simp only [stepVehicle, Bool.false_eq_true, if_false, mul_zero, zero_div] at hpos ⊢
    rw [if_neg (Nat.not_le.mpr hidx), if_neg hpos.ne', if_neg (not_le.mpr hpos)]
    simp

/-- C1, witness for the amended theorem at a concrete Traveling vehicle
strictly between two route coordinates. -/
theorem c1_amended_witness :
    stepVehicle flatDist [⟨0, 0⟩, ⟨0, 1⟩] [] 0 ⟨"bus-1", 0, ⟨0, 1/2⟩, false, 0, 25⟩ =
      ⟨"bus-1", 0, ⟨0, 1/2⟩, false, 0, 25⟩ :=
  c1_amended flatDist _ _ _ (by simp) (by norm_num [flatDist, defaultCoord])

/-- C2: vehicles never wrap back to index 0.  Every index advance is clamped
to `route_len - 1`, so `current_index ≥ route_len` is unreachable and the
defensive wraparound branch never fires: a vehicle that completes the last
segment (here: arrives at `coordinates[1]` of a 2-point route) keeps index
`route_len - 1 = 1` under every further tick-advance, for any elapsed time —
it is pinned at the last index forever, contradicting the documented
wrap-to-start behaviour. -/
theorem c2_no_wraparound (n : ℕ) (e : ℚ) :
    stepVehicle flatDist [⟨0, 0⟩, ⟨0, 1⟩] [] 3600 ⟨"bus-1", 1, ⟨0, 0⟩, false, 0, 25⟩ =
      ⟨"bus-1", 1, ⟨0, 1⟩, false, 0, 25⟩ ∧
    (stepVehicle flatDist [⟨0, 0⟩, ⟨0, 1⟩] [] e)^[n] ⟨"bus-1", 1, ⟨0, 1⟩, false, 0, 25⟩ =
      ⟨"bus-1", 1, ⟨0, 1⟩, false, 0, 25⟩ := by
  refine ⟨by norm_num [stepVehicle, flatDist, defaultCoord, stopCoord],
    Function.iterate_fixed ?_ n⟩
  norm_num [stepVehicle, flatDist, stopCoord, defaultCoord]

/-- While the cumulative elapsed time stays strictly below the remaining dwell
time, a Dwelling vehicle only counts down: each tick subtracts its elapsed
seconds and nothing else changes. -/
theorem applyTicks_dwell (dist : Coord → Coord → ℚ) (coords : List Coord)
    (stops : List Stop) (v : Vehicle) (es : List ℚ)
    (hv : v.is_at_stop = true)
    (hes : ∀ x ∈ es, 0 ≤ x)
    (hlt : es.sum < v.stop_wait_remaining) :
    applyTicks dist coords stops es v =
      { v with stop_wait_remaining := v.stop_wait_remaining - es.sum } := by
  induction es generalizing v with
  | nil => simp [applyTicks]
  | cons e es ih =>
    have he : 0 ≤ e := hes e (by simp)
    have hsum : 0 ≤ es.sum := List.sum_nonneg fun x hx => hes x (by simp [hx])
    have hall : e + es.sum < v.stop_wait_remaining := by simpa using hlt
    have hstep : stepVehicle dist coords stops e v =
        { v with stop_wait_remaining := v.stop_wait_remaining - e } := by
      obtain ⟨vid, ci, cp, ias, swr, sp⟩ := v
      subst hv
      simp only [stepVehicle, if_true]
      rw [if_neg (by dsimp only at hall hsum ⊢; linarith)]
    have h1 : applyTicks dist coords stops (e :: es) v =
        applyTicks dist coords stops es (stepVehicle dist coords stops e v) := rfl
    rw [h1, hstep, ih { v with stop_wait_remaining := v.stop_wait_remaining - e } hv
      (fun x hx => hes x (by simp [hx]))
      (show es.sum < v.stop_wait_remaining - e by linarith)]
    obtain ⟨vid, ci, cp, ias, swr, sp⟩ := v
    simp [sub_sub]

/-- C4, amended: a Dwelling vehicle with dwell-remaining `D` stays Dwelling
while the cumulative elapsed seconds remain below `D`, and on the first
tick-advance at which the cumulative elapsed seconds reach ≥ `D` it
transitions back to Traveling with its route index advanced by 1 *clamped to
the last valid index* — so at every starting index except the last the index
advances by exactly 1, but at the last valid index it stays put. -/
theorem c4_amended (dist : Coord → Coord → ℚ) (coords : List Coord) (stops : List Stop)
    (v : Vehicle) (es : List ℚ) (e : ℚ)
    (hv : v.is_at_stop = true)
    (hes : ∀ x ∈ es, 0 ≤ x)
    (hlt : es.sum < v.stop_wait_remaining)
    (hge : v.stop_wait_remaining ≤ es.sum + e) :
    applyTicks dist coords stops (es ++ [e]) v =
      { v with is_at_stop := false
               stop_wait_remaining := v.stop_wait_remaining - es.sum - e
               current_index := min (v.current_index + 1) (coords.length - 1) } := by
  have h1 : applyTicks dist coords stops (es ++ [e]) v =
      stepVehicle dist coords stops e (applyTicks dist coords stops es v) := by
    simp [applyTicks, List.foldl_append]
  rw [h1, applyTicks_dwell dist coords stops v es hv hes hlt]
  obtain ⟨vid, ci, cp, ias, swr, sp⟩ := v
  subst hv
  simp only [stepVehicle, if_true]
  rw [if_pos (by dsimp only at hge ⊢; linarith)]

/-- C4, counterexample: a vehicle Dwelling at the *last* valid route index
(index 1 of a 2-point route) with dwell duration 10 transitions back to
Traveling once 10 s have elapsed, but its route index is still 1 — it did not
advance by exactly 1, because the advance is clamped to `route_len - 1`. -/
theorem c4_counterexample :
    (stepVehicle flatDist [⟨0, 0⟩, ⟨0, 1⟩] [] 10
        ⟨"bus-1", 1, ⟨0, 1⟩, true, 10, 25⟩).is_at_stop = false ∧
    (stepVehicle flatDist [⟨0, 0⟩, ⟨0, 1⟩] [] 10
        ⟨"bus-1", 1, ⟨0, 1⟩, true, 10, 25⟩).current_index = 1 := by
  norm_num [stepVehicle]

/-- C4, witness for the amended theorem: dwelling with `D = 30` at index 0 of
a 3-point route, three 10-second ticks; the vehicle leaves the stop on the
third tick with index advanced to 1. -/
theorem c4_amended_witness :
    applyTicks flatDist [⟨0, 0⟩, ⟨0, 1⟩, ⟨0, 2⟩] [] ([10, 10] ++ [10])
        ⟨"bus-1", 0, ⟨0, 0⟩, true, 30, 25⟩ =
      ⟨"bus-1", 1, ⟨0, 0⟩, false, 0, 25⟩ := by
  have h := c4_amended flatDist [⟨0, 0⟩, ⟨0, 1⟩, ⟨0, 2⟩] []
    ⟨"bus-1", 0, ⟨0, 0⟩, true, 30, 25⟩ [10, 10] 10 rfl
    (by norm_num) (by norm_num) (by norm_num)
  rw [h]
  norm_num

/-- C5: a Traveling vehicle at positive distance from its target that can
cover that distance this tick (`moveDistance ≥ distanceToTarget`, equality
included) snaps exactly onto the target coordinate; then, if the stop scan
finds a stop within 0.02 km of the target, the vehicle starts Dwelling with
dwell-remaining equal to the *first* matching stop's dwell duration and its
index unchanged, and otherwise it stays Traveling with its index advanced by
1 clamped to the last valid index. -/
theorem c5_arrival_snap (dist : Coord → Coord → ℚ) (coords : List Coord)
    (stops : List Stop) (e : ℚ) (v : Vehicle)
    (hs : v.is_at_stop = false)
    (hidx : v.current_index < coords.length)
    (hpos : 0 < dist v.current_position (coords.getD v.current_index defaultCoord))
    (harr : dist v.current_position (coords.getD v.current_index defaultCoord) ≤
      v.speed_kmh / 3600 * e) :
    (stepVehicle dist coords stops e v).current_position =
      coords.getD v.current_index defaultCoord ∧
    (match stops.find?
        (fun s => dist (coords.getD v.current_index defaultCoord) (stopCoord s) < 1/50) with
     | some s =>
        (stepVehicle dist coords stops e v).is_at_stop = true ∧
        (stepVehicle dist coords stops e v).stop_wait_remaining = s.wait_time ∧
        (stepVehicle dist coords stops e v).current_index = v.current_index
     | none =>
        (stepVehicle dist coords stops e v).is_at_stop = false ∧
        (stepVehicle dist coords stops e v).current_index =
          min (v.current_index + 1) (coords.length - 1) ∧
        (stepVehicle dist coords stops e v).stop_wait_remaining =
          v.stop_wait_remaining) := by
  obtain ⟨vid, ci, cp, ias, swr, sp⟩ := v
  subst hs
  simp only [stepVehicle, Bool.false_eq_true, if_false]
  rw [if_neg (Nat.not_le.mpr hidx), if_neg hpos.ne', if_pos harr]
  cases hfind : stops.find?
      (fun s => dist (coords.getD ci defaultCoord) (stopCoord s) < 1/50) with
  | some s => simp [hfind]
  | none => simp [hfind]

/-- C5, witness: a vehicle one segment away from the last coordinate, with a
stop sitting exactly on that coordinate; after an arrival tick it dwells there
with the stop's 30 s dwell duration and an unchanged index. -/
theorem c5_arrival_snap_witness :
    (stepVehicle flatDist [⟨0, 0⟩, ⟨0, 1⟩] [⟨"A", 0, 1, 30⟩] 3600
        ⟨"bus-1", 1, ⟨0, 0⟩, false, 0, 25⟩).current_position = ⟨0, 1⟩ ∧
    (stepVehicle flatDist [⟨0, 0⟩, ⟨0, 1⟩] [⟨"A", 0, 1, 30⟩] 3600
        ⟨"bus-1", 1, ⟨0, 0⟩, false, 0, 25⟩).is_at_stop = true ∧
    (stepVehicle flatDist [⟨0, 0⟩, ⟨0, 1⟩] [⟨"A", 0, 1, 30⟩] 3600
        ⟨"bus-1", 1, ⟨0, 0⟩, false, 0, 25⟩).stop_wait_remaining = 30 ∧
    (stepVehicle flatDist [⟨0, 0⟩, ⟨0, 1⟩] [⟨"A", 0, 1, 30⟩] 3600
        ⟨"bus-1", 1, ⟨0, 0⟩, false, 0, 25⟩).current_index = 1 := by
  have h := c5_arrival_snap flatDist [⟨0, 0⟩, ⟨0, 1⟩] [⟨"A", 0, 1, 30⟩] 3600
    ⟨"bus-1", 1, ⟨0, 0⟩, false, 0, 25⟩ rfl (by norm_num)
    (by norm_num [flatDist, defaultCoord]) (by norm_num [flatDist, defaultCoord])
  norm_num [flatDist, stopCoord, defaultCoord, List.find?] at h
  exact ⟨h.1, h.2.1, h.2.2.1, h.2.2.2⟩

/-- C10: arriving within 0.02 km of a stop whose dwell duration is 0 still
puts the vehicle into Dwelling for the remainder of the tick — dwelling flag
set, dwell-remaining 0, index unchanged — and only the next tick-advance
(any nonnegative elapsed time) returns it to Traveling and advances its index
(clamped), so a zero-dwell stop halts the vehicle for one full tick. -/
theorem c10_zero_dwell_stop (dist : Coord → Coord → ℚ) (coords : List Coord)
    (stops : List Stop) (e e2 : ℚ) (v : Vehicle) (s : Stop)
    (hs : v.is_at_stop = false)
    (hidx : v.current_index < coords.length)
    (hpos : 0 < dist v.current_position (coords.getD v.current_index defaultCoord))
    (harr : dist v.current_position (coords.getD v.current_index defaultCoord) ≤
      v.speed_kmh / 3600 * e)
    (hfind : stops.find?
        (fun s => dist (coords.getD v.current_index defaultCoord) (stopCoord s) < 1/50) =
      some s)
    (hzero : s.wait_time = 0)
    (he2 : 0 ≤ e2) :
    (stepVehicle dist coords stops e v).is_at_stop = true ∧
    (stepVehicle dist coords stops e v).stop_wait_remaining = 0 ∧
    (stepVehicle dist coords stops e v).current_index = v.current_index ∧
    (stepVehicle dist coords stops e2 (stepVehicle dist coords stops e v)).is_at_stop =
      false ∧
    (stepVehicle dist coords stops e2 (stepVehicle dist coords stops e v)).current_index =
      min (v.current_index + 1) (coords.length - 1) := by
  have h1 : stepVehicle dist coords stops e v =
      { v with current_position := coords.getD v.current_index defaultCoord,
               is_at_stop := true, stop_wait_remaining := s.wait_time } := by
    obtain ⟨vid, ci, cp, ias, swr, sp⟩ := v
    subst hs
    simp only [stepVehicle, Bool.false_eq_true, if_false]
    rw [if_neg (Nat.not_le.mpr hidx), if_neg hpos.ne', if_pos harr, hfind]
  rw [h1, hzero]
  refine ⟨rfl, rfl, rfl, ?_, ?_⟩ <;>
  · simp only [stepVehicle, if_true]
    rw [if_pos (show (0 : ℚ) - e2 ≤ 0 by linarith)]

/-- C10, witness: same concrete scenario as the C5 witness but with a
zero-dwell stop; the vehicle dwells for the arrival tick and leaves on the
next 1-second tick with its index clamped at the last valid index. -/
theorem c10_zero_dwell_stop_witness :
    (stepVehicle flatDist [⟨0, 0⟩, ⟨0, 1⟩] [⟨"A", 0, 1, 0⟩] 3600
        ⟨"bus-1", 1, ⟨0, 0⟩, false, 0, 25⟩).is_at_stop = true ∧
    (stepVehicle flatDist [⟨0, 0⟩, ⟨0, 1⟩] [⟨"A", 0, 1, 0⟩] 3600
        ⟨"bus-1", 1, ⟨0, 0⟩, false, 0, 25⟩).stop_wait_remaining = 0 ∧
    (stepVehicle flatDist [⟨0, 0⟩, ⟨0, 1⟩] [⟨"A", 0, 1, 0⟩] 3600
        ⟨"bus-1", 1, ⟨0, 0⟩, false, 0, 25⟩).current_index = 1 ∧
    (stepVehicle flatDist [⟨0, 0⟩, ⟨0, 1⟩] [⟨"A", 0, 1, 0⟩] 1
        (stepVehicle flatDist [⟨0, 0⟩, ⟨0, 1⟩] [⟨"A", 0, 1, 0⟩] 3600
          ⟨"bus-1", 1, ⟨0, 0⟩, false, 0, 25⟩)).is_at_stop = false ∧
    (stepVehicle flatDist [⟨0, 0⟩, ⟨0, 1⟩] [⟨"A", 0, 1, 0⟩] 1
        (stepVehicle flatDist [⟨0, 0⟩, ⟨0, 1⟩] [⟨"A", 0, 1, 0⟩] 3600
          ⟨"bus-1", 1, ⟨0, 0⟩, false, 0, 25⟩)).current_index = 1 := by
  have h := c10_zero_dwell_stop flatDist [⟨0, 0⟩, ⟨0, 1⟩] [⟨"A", 0, 1, 0⟩] 3600 1
    ⟨"bus-1", 1, ⟨0, 0⟩, false, 0, 25⟩ ⟨"A", 0, 1, 0⟩ rfl (by norm_num)
    (by norm_num [flatDist, defaultCoord]) (by norm_num [flatDist, defaultCoord])
    (by norm_num [flatDist, stopCoord, defaultCoord, List.find?]) rfl (by norm_num)
  simpa using h

/-- C7: replacing the route with a non-empty coordinate list of length `L`
keeps the fleet size and the configured stops, and sets vehicle `i` of `N` to
route index `(i*L)/N` clamped to `L-1` (Nat division is the `floor` of the
claim), snaps its position to that coordinate, clears the dwelling flag and
resets dwell-remaining to 0, leaving its other fields (id, speed) alone. -/
theorem c7_replace_route (sim : Simulator) (coords : List Coord) (i : ℕ)
    (hne : coords ≠ []) (hi : i < sim.vehicles.length) :
    (set_route_coordinates sim coords).stops = sim.stops ∧
    (set_route_coordinates sim coords).coordinates = coords ∧
    (set_route_coordinates sim coords).vehicles.length = sim.vehicles.length ∧
    (set_route_coordinates sim coords).vehicles.get? i =
      some { sim.vehicles.get ⟨i, hi⟩ with
        current_index := min (i * coords.length / sim.vehicles.length) (coords.length - 1)
        current_position := coords.getD
          (min (i * coords.length / sim.vehicles.length) (coords.length - 1)) defaultCoord
        is_at_stop := false
        stop_wait_remaining := 0 } := by
  have hL : 1 ≤ coords.length := List.length_pos.mpr hne
  have hN : max 1 sim.vehicles.length = sim.vehicles.length := max_eq_right (by omega)
  have key : (if i * coords.length / sim.vehicles.length < coords.length then
        i * coords.length / sim.vehicles.length else coords.length - 1) =
      min (i * coords.length / sim.vehicles.length) (coords.length - 1) := by
    rcases lt_or_ge (i * coords.length / sim.vehicles.length) coords.length with h | h
    · rw [if_pos h, min_eq_left (by omega)]
    · rw [if_neg (not_lt.mpr h), min_eq_right (by omega)]
  refine ⟨?_, ?_, ?_, ?_⟩
  · simp [set_route_coordinates, if_neg hne]
  · simp [set_route_coordinates, if_neg hne]
  · simp [set_route_coordinates, if_neg hne]
  · have hi' : i < ((set_route_coordinates sim coords).vehicles).length := by
      simp [set_route_coordinates, if_neg hne, hi]
    rw [List.get?_eq_get hi']
    congr 1
    have hmain : (set_route_coordinates sim coords).vehicles =
        sim.vehicles.mapIdx fun j v =>
          { v with
            current_index := if j * coords.length / (max 1 sim.vehicles.length) <
                coords.length then j * coords.length / (max 1 sim.vehicles.length)
              else coords.length - 1
            current_position := coords.getD
              (if j * coords.length / (max 1 sim.vehicles.length) < coords.length then
                j * coords.length / (max 1 sim.vehicles.length) else coords.length - 1)
              defaultCoord
            is_at_stop := false
            stop_wait_remaining := 0 } := by
      simp [set_route_coordinates, if_neg hne]
    rw [List.get_of_eq hmain, List.get_mapIdx _ _ i hi]
    simp only [hN, key]

/-- C7, witness: two vehicles, new route of length 3; vehicle 1 is moved to
index `(1*3)/2 = 1`, its position snapped there, its dwell state cleared, its
id and speed kept. -/
theorem c7_replace_route_witness :
    (set_route_coordinates
        ⟨[⟨0, 0⟩], [⟨"A", 0, 0, 30⟩],
          [⟨"bus-1", 0, ⟨9, 9⟩, true, 5, 25⟩, ⟨"bus-2", 0, ⟨8, 8⟩, false, 0, 30⟩]⟩
        [⟨0, 0⟩, ⟨0, 1⟩, ⟨0, 2⟩]).vehicles.get? 1 =
      some ⟨"bus-2", 1, ⟨0, 1⟩, false, 0, 30⟩ := by
  have h := c7_replace_route
    ⟨[⟨0, 0⟩], [⟨"A", 0, 0, 30⟩],
      [⟨"bus-1", 0, ⟨9, 9⟩, true, 5, 25⟩, ⟨"bus-2", 0, ⟨8, 8⟩, false, 0, 30⟩]⟩
    [⟨0, 0⟩, ⟨0, 1⟩, ⟨0, 2⟩] 1 (by simp) (by norm_num)
  simpa using h.2.2.2

/-- An in-range route index stays in range under one tick-advance of a single
vehicle (every branch of the advance clamps, resets or keeps the index). -/
theorem stepVehicle_index_lt (dist : Coord → Coord → ℚ) (coords : List Coord)
    (stops : List Stop) (e : ℚ) (v : Vehicle)
    (hL : coords ≠ []) (hv : v.current_index < coords.length) :
    (stepVehicle dist coords stops e v).current_index < coords.length := by
  have h1 : 1 ≤ coords.length := List.length_pos.mpr hL
  obtain ⟨vid, ci, cp, ias, swr, sp⟩ := v
  simp only at hv
  cases ias with
  | true =>
    simp only [stepVehicle, if_true]
    split_ifs <;> simp only <;> omega
  | false =>
    simp only [stepVehicle, Bool.false_eq_true, if_false]
    rw [if_neg (Nat.not_le.mpr hv)]
    by_cases h3 : dist cp (coords.getD ci defaultCoord) = 0
    · rw [if_pos h3]; simp only; omega
    · rw [if_neg h3]
      by_cases h4 : dist cp (coords.getD ci defaultCoord) ≤ sp / 3600 * e
      · rw [if_pos h4]
        cases hf : stops.find?
            (fun s => dist (coords.getD ci defaultCoord) (stopCoord s) < 1/50) with
        | some s => simp only [hf]; exact hv
        | none => simp only [hf]; omega
      · rw [if_neg h4]; exact hv

/-- Every vehicle's route index points inside the coordinate list. -/
def vehicleIdxInv (sim : Simulator) : Prop :=
  ∀ v ∈ sim.vehicles, v.current_index < sim.coordinates.length

/-- C6: for a non-empty route, `0 ≤ current_index ≤ routeLength - 1` (stated
over `ℕ` as `current_index < routeLength`) holds after engine construction,
is preserved by every tick-advance, and holds after route replacement
relative to the route length then in effect. -/
theorem c6_index_invariant (dist : Coord → Coord → ℚ) (coords : List Coord)
    (stops : List Stop) (n : ℤ) (e : ℚ) (sim : Simulator) (newCoords : List Coord)
    (hc : coords ≠ []) (hL : sim.coordinates ≠ []) (hinv : vehicleIdxInv sim) :
    vehicleIdxInv (initSim coords stops n) ∧
    vehicleIdxInv (update_positions dist e sim) ∧
    vehicleIdxInv (set_route_coordinates sim newCoords) := by
  have h1 : 1 ≤ coords.length := List.length_pos.mpr hc
  refine ⟨?_, ?_, ?_⟩
  · intro v hv
    simp only [initSim, List.mem_map, List.mem_range] at hv
    obtain ⟨i, _, rfl⟩ := hv
    simp only [initSim, initVehicle]
    split_ifs <;> omega
  · intro v hv
    simp only [update_positions, List.mem_map] at hv
    obtain ⟨w, hw, rfl⟩ := hv
    exact stepVehicle_index_lt dist sim.coordinates sim.stops e w hL (hinv w hw)
  · by_cases hn : newCoords = []
    · subst hn
      simp only [set_route_coordinates, if_pos rfl]
      exact hinv
    · have h2 : 1 ≤ newCoords.length := List.length_pos.mpr hn
      intro v hv
      simp only [set_route_coordinates, if_neg hn] at hv ⊢
      obtain ⟨⟨j, hj⟩, hget⟩ := List.get_of_mem hv
      have hj' : j < sim.vehicles.length := by
        simpa using hj
      rw [← hget, List.get_mapIdx _ _ j hj']
      simp only
      split_ifs <;> omega

/-- C6, witness: the invariant holds for a freshly built two-vehicle engine,
is kept by a tick, and is re-established by a route swap. -/
theorem c6_index_invariant_witness :
    vehicleIdxInv (initSim [⟨0, 0⟩, ⟨0, 1⟩] [] 2) ∧
    vehicleIdxInv (update_positions flatDist 1
      ⟨[⟨0, 0⟩, ⟨0, 1⟩], [], [⟨"bus-1", 1, ⟨0, 0⟩, false, 0, 25⟩]⟩) ∧
    vehicleIdxInv (set_route_coordinates
      ⟨[⟨0, 0⟩, ⟨0, 1⟩], [], [⟨"bus-1", 1, ⟨0, 0⟩, false, 0, 25⟩]⟩ [⟨5, 5⟩]) :=
  c6_index_invariant flatDist [⟨0, 0⟩, ⟨0, 1⟩] [] 2 1
    ⟨[⟨0, 0⟩, ⟨0, 1⟩], [], [⟨"bus-1", 1, ⟨0, 0⟩, false, 0, 25⟩]⟩ [⟨5, 5⟩]
    (by simp) (by simp)
    (by intro v hv; simp only [List.mem_singleton] at hv; subst hv; norm_num)

/-- The per-vehicle ETA query never produces the empty-fleet error text: its
results are success or one of its own three error kinds. -/
theorem eta_for_vehicle_error_ne (dist : Coord → Coord → ℚ) (sim : Simulator)
    (vid sname : String) :
    (calculate_eta_for_vehicle dist sim vid sname).error ≠ some "No vehicles available" := by
  unfold calculate_eta_for_vehicle
  split
  · simp only [EtaOut.mk.injEq]
    intro h
    exact absurd (Option.some.inj h) (by decide)
  · split
    · intro h
      exact absurd (Option.some.inj h) (by decide)
    · unfold etaCore
      dsimp only
      split
      · intro h
        exact absurd (Option.some.inj h) (by decide)
      · simp

/-- C9: the constructed fleet has `max(1, requested)` vehicles (so at least
one), tick-advance and route replacement never change the fleet size, and on
any non-empty fleet the legacy status and ETA queries never take their
empty-fleet error branches: the ETA query delegates to vehicle 0 and never
returns the "No vehicles available" result, and the status query never
returns the empty result. -/
theorem c9_fleet_never_empty (dist : Coord → Coord → ℚ) (coords : List Coord)
    (stops : List Stop) (n : ℤ) (e : ℚ) (sim : Simulator) (newCoords : List Coord)
    (sname : String) (hsim : sim.vehicles ≠ []) :
    (initSim coords stops n).vehicles.length = (max 1 n).toNat ∧
    (initSim coords stops n).vehicles ≠ [] ∧
    (update_positions dist e sim).vehicles.length = sim.vehicles.length ∧
    (set_route_coordinates sim newCoords).vehicles.length = sim.vehicles.length ∧
    (∀ v rest, sim.vehicles = v :: rest →
      calculate_eta_to_stop dist sim sname = calculate_eta_for_vehicle dist sim v.id sname) ∧
    (calculate_eta_to_stop dist sim sname).error ≠ some "No vehicles available" ∧
    get_status sim ≠ none := by
  obtain ⟨v, rest, hcons⟩ := List.exists_cons_of_ne_nil hsim
  have hdeleg : ∀ v' rest', sim.vehicles = v' :: rest' →
      calculate_eta_to_stop dist sim sname =
        calculate_eta_for_vehicle dist sim v'.id sname := by
    intro v' rest' hc
    unfold calculate_eta_to_stop
    rw [hc]
  refine ⟨by simp [initSim], ?_, by simp [update_positions], ?_, hdeleg, ?_, ?_⟩
  · apply List.ne_nil_of_length_pos
    have : (initSim coords stops n).vehicles.length = (max 1 n).toNat := by simp [initSim]
    omega
  · unfold set_route_coordinates
    split
    · rfl
    · simp
  · rw [hdeleg v rest hcons]
    exact eta_for_vehicle_error_ne dist sim _ sname
  · unfold get_status
    rw [show sim.vehicles = v :: rest from hcons]
    simp

/-- C9, witness: a requested fleet of 3 on a 1-point route; all parts of the
never-empty property at concrete inputs. -/
theorem c9_fleet_never_empty_witness :
    (initSim [⟨0, 0⟩] [] 3).vehicles.length = (max 1 (3 : ℤ)).toNat ∧
    (initSim [⟨0, 0⟩] [] 3).vehicles ≠ [] ∧
    (update_positions flatDist 1
        ⟨[⟨0, 0⟩], [], [⟨"bus-1", 0, ⟨0, 0⟩, false, 0, 25⟩]⟩).vehicles.length =
      (⟨[⟨0, 0⟩], [], [⟨"bus-1", 0, ⟨0, 0⟩, false, 0, 25⟩]⟩ : Simulator).vehicles.length ∧
    (set_route_coordinates
        ⟨[⟨0, 0⟩], [], [⟨"bus-1", 0, ⟨0, 0⟩, false, 0, 25⟩]⟩ [⟨1, 1⟩]).vehicles.length =
      (⟨[⟨0, 0⟩], [], [⟨"bus-1", 0, ⟨0, 0⟩, false, 0, 25⟩]⟩ : Simulator).vehicles.length ∧
    calculate_eta_to_stop flatDist
        ⟨[⟨0, 0⟩], [], [⟨"bus-1", 0, ⟨0, 0⟩, false, 0, 25⟩]⟩ "A" =
      calculate_eta_for_vehicle flatDist
        ⟨[⟨0, 0⟩], [], [⟨"bus-1", 0, ⟨0, 0⟩, false, 0, 25⟩]⟩ "bus-1" "A" ∧
    (calculate_eta_to_stop flatDist
        ⟨[⟨0, 0⟩], [], [⟨"bus-1", 0, ⟨0, 0⟩, false, 0, 25⟩]⟩ "A").error ≠
      some "No vehicles available" ∧
    get_status ⟨[⟨0, 0⟩], [], [⟨"bus-1", 0, ⟨0, 0⟩, false, 0, 25⟩]⟩ ≠ none := by
  have h := c9_fleet_never_empty flatDist [⟨0, 0⟩] [] 3 1
    ⟨[⟨0, 0⟩], [], [⟨"bus-1", 0, ⟨0, 0⟩, false, 0, 25⟩]⟩ [⟨1, 1⟩] "A" (by simp)
  exact ⟨h.1, h.2.1, h.2.2.1, h.2.2.2.1, h.2.2.2.2.1 _ _ rfl,
    h.2.2.2.2.2.1, h.2.2.2.2.2.2⟩

/-- C3, counterexample: two engines identical except for the first vehicle's
stored `stop_wait_remaining` (-600 vs 0), the vehicle NOT dwelling in either
(`is_at_stop = false`); the returned ETA minutes differ (-10 vs 0), so a
non-Dwelling vehicle's stored dwell-remaining does affect the result.  (The
-600 residue is reachable: exiting a dwell keeps the negative remainder.) -/
theorem c3_counterexample :
    calculate_eta_for_vehicle flatDist
      ⟨[⟨0, 0⟩, ⟨0, 1⟩], [⟨"A", 0, 0, 30⟩], [⟨"bus-1", 0, ⟨0, 0⟩, false, -600, 25⟩]⟩
      "bus-1" "A" = ⟨some (-10), some 0, none⟩ ∧
    calculate_eta_for_vehicle flatDist
      ⟨[⟨0, 0⟩, ⟨0, 1⟩], [⟨"A", 0, 0, 30⟩], [⟨"bus-1", 0, ⟨0, 0⟩, false, 0, 25⟩]⟩
      "bus-1" "A" = ⟨some 0, some 0, none⟩ := by
  have hwalk : etaWalk flatDist [⟨0, 0⟩, ⟨0, 1⟩] ⟨"A", 0, 0, 30⟩ 0 0 = some 0 := by
    rw [etaWalk]
    norm_num [flatDist, stopCoord]
  constructor <;>
  · simp only [calculate_eta_for_vehicle, etaCore, List.find?]
    norm_num [flatDist, stopCoord, defaultCoord, hwalk]

/-- C3, amended: the ETA computation adds the vehicle's stored
`stop_wait_remaining / 60` to the returned minutes *unconditionally*, whether
or not the vehicle is currently Dwelling: replacing the stored value `w₀` by
`w` on a successful query shifts the returned minutes by `(w - w₀)/60` and
changes nothing else.  (A non-dwelling vehicle with a leftover negative
residue therefore has its ETA reduced by that residue.) -/
theorem c3_amended (dist : Coord → Coord → ℚ) (coords : List Coord) (stops : List Stop)
    (v : Vehicle) (s : Stop) (w m d : ℚ)
    (h : etaCore dist coords stops v s = ⟨some m, some d, none⟩) :
    etaCore dist coords stops { v with stop_wait_remaining := w } s =
      ⟨some (m - v.stop_wait_remaining / 60 + w / 60), some d, none⟩ := by
  unfold etaCore at h ⊢
  dsimp only at h ⊢
  revert h
  cases hwalk : etaWalk dist coords s v.current_index
      (if v.current_index < coords.length then
        dist v.current_position (coords.getD v.current_index defaultCoord) else 0) with
  | none =>
    intro h
    exact absurd h (by simp)
  | some td =>
    intro h
    simp only [EtaOut.mk.injEq, Option.some.injEq] at h ⊢
    obtain ⟨hm, hd, -⟩ := h
    refine ⟨?_, hd, trivial⟩
    rw [← hm]
    ring

/-- C3, witness for the amended theorem: a vehicle with stored dwell-remaining
0 has ETA 0 min; setting the stored value to 60 shifts the result by exactly
one minute, with the vehicle not dwelling. -/
theorem c3_amended_witness :
    etaCore flatDist [⟨0, 0⟩, ⟨0, 1⟩] [⟨"A", 0, 0, 30⟩]
      ⟨"bus-1", 0, ⟨0, 0⟩, false, 60, 25⟩ ⟨"A", 0, 0, 30⟩ =
      ⟨some (0 - 0 / 60 + 60 / 60), some 0, none⟩ := by
  have hwalk : etaWalk flatDist [⟨0, 0⟩, ⟨0, 1⟩] ⟨"A", 0, 0, 30⟩ 0 0 = some 0 := by
    rw [etaWalk]
    norm_num [flatDist, stopCoord]
  exact c3_amended flatDist [⟨0, 0⟩, ⟨0, 1⟩] [⟨"A", 0, 0, 30⟩]
    ⟨"bus-1", 0, ⟨0, 0⟩, false, 0, 25⟩ ⟨"A", 0, 0, 30⟩ 60 0 0
    (by simp only [etaCore]
        norm_num [flatDist, stopCoord, defaultCoord, hwalk])

/-- `List.getD` agrees with `List.get` at an in-range index. -/
theorem getD_of_lt (l : List Coord) (j : ℕ) (h : j < l.length) :
    l.getD j defaultCoord = l.get ⟨j, h⟩ := by
  rw [List.getD_eq_getElem?_getD, List.getElem?_eq_getElem h]
  rfl

/-- The route walk succeeds exactly when some coordinate from the start
index onwards lies within 0.05 km of the target stop. -/
theorem etaWalk_isSome_iff (dist : Coord → Coord → ℚ) (coords : List Coord)
    (target : Stop) (i : ℕ) (acc : ℚ) :
    (etaWalk dist coords target i acc).isSome = true ↔
      ∃ j, i ≤ j ∧ j < coords.length ∧
        dist (coords.getD j defaultCoord) (stopCoord target) < 1/20 := by
  have main : ∀ n i acc, coords.length - i ≤ n →
      ((etaWalk dist coords target i acc).isSome = true ↔
        ∃ j, i ≤ j ∧ j < coords.length ∧
          dist (coords.getD j defaultCoord) (stopCoord target) < 1/20) := by
    intro n
    induction n with
    | zero =>
      intro i acc hn
      have hi : ¬ i < coords.length := by omega
      rw [etaWalk, dif_neg hi]
      simp only [Option.isSome_none, Bool.false_eq_true, false_iff]
      rintro ⟨j, hij, hjl, -⟩
      omega
    | succ n ih =>
      intro i acc hn
      rw [etaWalk]
      by_cases hi : i < coords.length
      · rw [dif_pos hi]
        by_cases hd : dist (coords.get ⟨i, hi⟩) (stopCoord target) < 1/20
        · rw [if_pos hd]
          simp only [Option.isSome_some, true_iff]
          exact ⟨i, le_refl i, hi, by rwa [getD_of_lt coords i hi]⟩
        · rw [if_neg hd]
          rw [ih (i + 1) _ (by omega)]
          constructor
          · rintro ⟨j, hij, hjl, hdj⟩
            exact ⟨j, by omega, hjl, hdj⟩
          · rintro ⟨j, hij, hjl, hdj⟩
            refine ⟨j, ?_, hjl, hdj⟩
            rcases Nat.eq_or_lt_of_le hij with heq | h'
            · exfalso
              apply hd
              rw [getD_of_lt coords j hjl] at hdj
              cases heq
              exact hdj
            · omega
      · rw [dif_neg hi]
        simp only [Option.isSome_none, Bool.false_eq_true, false_iff]
        rintro ⟨j, hij, hjl, -⟩
        omega
  exact main (coords.length - i) i acc (le_refl _)

/-- The ETA body returns numeric minutes exactly when the forward walk from
the vehicle's index reaches a coordinate within 0.05 km of the stop. -/
theorem etaCore_minutes_isSome_iff (dist : Coord → Coord → ℚ) (coords : List Coord)
    (stops : List Stop) (v : Vehicle) (s : Stop) :
    (etaCore dist coords stops v s).eta_minutes.isSome = true ↔
      ∃ j, v.current_index ≤ j ∧ j < coords.length ∧
        dist (coords.getD j defaultCoord) (stopCoord s) < 1/20 := by
  unfold etaCore
  dsimp only
  rw [← etaWalk_isSome_iff dist coords s v.current_index
    (if v.current_index < coords.length then
      dist v.current_position (coords.getD v.current_index defaultCoord) else 0)]
  cases hwalk : etaWalk dist coords s v.current_index
      (if v.current_index < coords.length then
        dist v.current_position (coords.getD v.current_index defaultCoord) else 0) with
  | none => simp
  | some td => simp

/-- The ETA body yields `None` minutes exactly when it yields an error. -/
theorem etaCore_minutes_none_iff_error (dist : Coord → Coord → ℚ) (coords : List Coord)
    (stops : List Stop) (v : Vehicle) (s : Stop) :
    ((etaCore dist coords stops v s).eta_minutes = none ↔
      (etaCore dist coords stops v s).error.isSome = true) := by
  unfold etaCore
  dsimp only
  cases hwalk : etaWalk dist coords s v.current_index
      (if v.current_index < coords.length then
        dist v.current_position (coords.getD v.current_index defaultCoord) else 0) with
  | none => simp
  | some td => simp

/-- When no remaining coordinate is near the stop, the ETA body fails with
the walk-exhausted error. -/
theorem etaCore_not_on_route (dist : Coord → Coord → ℚ) (coords : List Coord)
    (stops : List Stop) (v : Vehicle) (s : Stop)
    (h : ¬ ∃ j, v.current_index ≤ j ∧ j < coords.length ∧
      dist (coords.getD j defaultCoord) (stopCoord s) < 1/20) :
    etaCore dist coords stops v s = ⟨none, none, some "Stop not on remaining route"⟩ := by
  have hw : etaWalk dist coords s v.current_index
      (if v.current_index < coords.length then
        dist v.current_position (coords.getD v.current_index defaultCoord) else 0) = none := by
    rw [← Option.not_isSome_iff_eq_none]
    intro hs
    exact h ((etaWalk_isSome_iff dist coords s v.current_index _).mp hs)
  unfold etaCore
  dsimp only
  rw [hw]

/-- C8: the per-vehicle ETA query returns numeric minutes iff the vehicle id
matches, the stop name matches, and the forward walk from the vehicle's index
reaches a route coordinate within 0.05 km of that stop; with a known vehicle
an unknown stop name yields the "Stop not found" error; a known vehicle and
stop with an exhausted walk yield the "Stop not on remaining route" error;
and the minutes are `None` exactly when an error is present. -/
theorem c8_eta_query (dist : Coord → Coord → ℚ) (sim : Simulator) (vid sname : String) :
    ((calculate_eta_for_vehicle dist sim vid sname).eta_minutes.isSome = true ↔
      (∃ v, sim.vehicles.find? (fun u => u.id == vid) = some v ∧
       ∃ s, sim.stops.find? (fun u => u.name == sname) = some s ∧
       ∃ j, v.current_index ≤ j ∧ j < sim.coordinates.length ∧
         dist (sim.coordinates.getD j defaultCoord) (stopCoord s) < 1/20)) ∧
    ((∃ v, sim.vehicles.find? (fun u => u.id == vid) = some v) →
      sim.stops.find? (fun u => u.name == sname) = none →
      calculate_eta_for_vehicle dist sim vid sname = ⟨none, none, some "Stop not found"⟩) ∧
    (∀ v s, sim.vehicles.find? (fun u => u.id == vid) = some v →
      sim.stops.find? (fun u => u.name == sname) = some s →
      (¬ ∃ j, v.current_index ≤ j ∧ j < sim.coordinates.length ∧
        dist (sim.coordinates.getD j defaultCoord) (stopCoord s) < 1/20) →
      calculate_eta_for_vehicle dist sim vid sname =
        ⟨none, none, some "Stop not on remaining route"⟩) ∧
    ((calculate_eta_for_vehicle dist sim vid sname).eta_minutes = none ↔
      (calculate_eta_for_vehicle dist sim vid sname).error.isSome = true) := by
  unfold calculate_eta_for_vehicle
  cases hfv : sim.vehicles.find? (fun u => u.id == vid) with
  | none =>
    refine ⟨?_, ?_, ?_, ?_⟩
    · simp
    · rintro ⟨v, hv⟩
      exact absurd hv (by simp)
    · rintro v s hv
      exact absurd hv (by simp)
    · simp
  | some v =>
    cases hfs : sim.stops.find? (fun u => u.name == sname) with
    | none =>
      refine ⟨?_, ?_, ?_, ?_⟩
      · simp
      · intro _ _
        rfl
      · rintro v' s hv hs
        exact absurd hs (by simp)
      · simp
    | some s =>
      refine ⟨?_, ?_, ?_, ?_⟩
      · rw [etaCore_minutes_isSome_iff]
        constructor
        · intro hj
          exact ⟨v, rfl, s, rfl, hj⟩
        · rintro ⟨v', hv', s', hs', hj⟩
          obtain rfl := Option.some.inj hv'
          obtain rfl := Option.some.inj hs'
          exact hj
      · intro _ h
        exact absurd h (by simp)
      · rintro v' s' hv' hs' hnj
        obtain rfl := Option.some.inj hv'
        obtain rfl := Option.some.inj hs'
        exact etaCore_not_on_route dist sim.coordinates sim.stops v s hnj
      · exact etaCore_minutes_none_iff_error dist sim.coordinates sim.stops v s

/-- C8, witness: concrete fleets exhibiting the found case, the unknown-stop
error, the walk-exhausted error, and the minutes-iff-no-error equivalence. -/
theorem c8_eta_query_witness :
    (calculate_eta_for_vehicle flatDist
      ⟨[⟨0, 0⟩, ⟨0, 1⟩], [⟨"A", 0, 0, 30⟩], [⟨"bus-1", 0, ⟨0, 0⟩, false, 0, 25⟩]⟩
      "bus-1" "A").eta_minutes.isSome = true ∧
    calculate_eta_for_vehicle flatDist
      ⟨[⟨0, 0⟩, ⟨0, 1⟩], [⟨"A", 0, 0, 30⟩], [⟨"bus-1", 0, ⟨0, 0⟩, false, 0, 25⟩]⟩
      "bus-1" "C" = ⟨none, none, some "Stop not found"⟩ ∧
    calculate_eta_for_vehicle flatDist
      ⟨[⟨0, 0⟩, ⟨0, 1⟩], [⟨"B", 5, 5, 30⟩], [⟨"bus-1", 0, ⟨0, 0⟩, false, 0, 25⟩]⟩
      "bus-1" "B" = ⟨none, none, some "Stop not on remaining route"⟩ ∧
    ((calculate_eta_for_vehicle flatDist
      ⟨[⟨0, 0⟩, ⟨0, 1⟩], [⟨"B", 5, 5, 30⟩], [⟨"bus-1", 0, ⟨0, 0⟩, false, 0, 25⟩]⟩
      "bus-1" "B").eta_minutes = none ↔
     (calculate_eta_for_vehicle flatDist
      ⟨[⟨0, 0⟩, ⟨0, 1⟩], [⟨"B", 5, 5, 30⟩], [⟨"bus-1", 0, ⟨0, 0⟩, false, 0, 25⟩]⟩
      "bus-1" "B").error.isSome = true) := by
  refine ⟨?_, ?_, ?_, ?_⟩
  · exact (c8_eta_query flatDist
      ⟨[⟨0, 0⟩, ⟨0, 1⟩], [⟨"A", 0, 0, 30⟩], [⟨"bus-1", 0, ⟨0, 0⟩, false, 0, 25⟩]⟩
      "bus-1" "A").1.mpr
      ⟨⟨"bus-1", 0, ⟨0, 0⟩, false, 0, 25⟩, by simp [List.find?],
       ⟨"A", 0, 0, 30⟩, by simp [List.find?],
       0, le_refl 0, by norm_num, by norm_num [flatDist, stopCoord, defaultCoord]⟩
  · exact (c8_eta_query flatDist
      ⟨[⟨0, 0⟩, ⟨0, 1⟩], [⟨"A", 0, 0, 30⟩], [⟨"bus-1", 0, ⟨0, 0⟩, false, 0, 25⟩]⟩
      "bus-1" "C").2.1
      ⟨⟨"bus-1", 0, ⟨0, 0⟩, false, 0, 25⟩, by simp [List.find?]⟩ (by simp [List.find?])
  · exact (c8_eta_query flatDist
      ⟨[⟨0, 0⟩, ⟨0, 1⟩], [⟨"B", 5, 5, 30⟩], [⟨"bus-1", 0, ⟨0, 0⟩, false, 0, 25⟩]⟩
      "bus-1" "B").2.2.1 ⟨"bus-1", 0, ⟨0, 0⟩, false, 0, 25⟩ ⟨"B", 5, 5, 30⟩
      (by simp [List.find?]) (by simp [List.find?])
      (by rintro ⟨j, h0, h1, h2⟩
          simp only [List.length_cons, List.length_nil] at h1
          interval_cases j <;>
            norm_num [flatDist, stopCoord, defaultCoord] at h2)
  · exact (c8_eta_query flatDist
      ⟨[⟨0, 0⟩, ⟨0, 1⟩], [⟨"B", 5, 5, 30⟩], [⟨"bus-1", 0, ⟨0, 0⟩, false, 0, 25⟩]⟩
      "bus-1" "B").2.2.2
